import Mathlib

/-!
Verification development for the campus-transit recommendation backend.

The Python module `src/backend/src/recommendation/service.py` is shallowly
embedded below.  Python floats are modelled as exact rationals (`ℚ`); the
float functions `round(x, 1)` and the format `f"{x:.0f}"` are modelled by
exact rational rounding with ties to even, which is what Python's rounding
does on exactly-representable values.  The injected data providers
(`search_nearby_stops`, `get_departures`, `get_building`) are function
parameters, exactly as in the source.  The great-circle distance provider
(`src/backend/src/data/geo.py`, a transcendental formula over floats) is
likewise passed to the engine as a function parameter `dist`; it is modelled
separately over `ℝ` for the geometric claims.  The Python-stdlib timestamp
parser `datetime.fromisoformat` composed with `.timestamp()` is modelled as
an abstract parameter `fromisoformat : String → Option ℚ` returning POSIX
seconds; `_parse_arrive_by`'s own `replace("Z", "+00:00")` wrapper and its
failure propagation are embedded faithfully.
-/

set_option linter.unusedVariables false

/-- Rounding of a rational to the nearest integer with ties to even,
the rounding used by Python's `round` builtin. -/
def roundHalfEven (q : ℚ) : ℤ :=
  let f : ℤ := ⌊q⌋
  let r : ℚ := q - (f : ℚ)
  if r < 1/2 then f
  else if 1/2 < r then f + 1
  else if f % 2 = 0 then f else f + 1

/-- Model of Python `round(x, 1)`: round to one decimal place, ties to even. -/
def round1 (q : ℚ) : ℚ := ((roundHalfEven (10 * q) : ℤ) : ℚ) / 10

/-- Model of the Python format `f"{x:.0f}"`: round to the nearest integer
(ties to even) and print it, keeping the sign of a negative zero. -/
def fmt0f (q : ℚ) : String :=
  let n := roundHalfEven q
  if n = 0 ∧ q < 0 then "-0" else toString n

/-! ## Data model

`Stop` mirrors the `(stop_id, name, lat, lng)` tuples returned by
`search_nearby_stops`; `Departure` mirrors the departure dicts returned by
`get_departures` (absent keys modelled by `none`, matching
`d.get("route") or ""` and `int(d.get("expected_mins") or 0)`);
`Step` and `RecOption` mirror the step/option dicts built by
`compute_recommendations`. -/

/-- Model of Python `str.strip()` (no argument): remove leading and trailing
whitespace characters. -/
def py_strip (s : String) : String :=
  ⟨((s.data.dropWhile Char.isWhitespace).reverse.dropWhile Char.isWhitespace).reverse⟩

structure Stop where
  sid : String
  sname : String
  slat : ℚ
  slng : ℚ
deriving Repr, DecidableEq

structure Departure where
  route : Option String
  headsign : Option String
  expected_mins : Option ℤ
deriving Repr, DecidableEq

inductive Step where
  | walkToStop (stop_id stop_name : String) (duration_minutes : ℚ) (stop_lat stop_lng : ℚ)
  | wait (stop_id : String) (duration_minutes : ℚ)
  | ride (route headsign stop_id : String) (duration_minutes : ℚ)
      (alighting_stop_id : Option String) (alighting_stop_lat alighting_stop_lng : Option ℚ)
  | walkToDest (building_id : String) (duration_minutes : ℚ) (building_lat building_lng : ℚ)
deriving Repr, DecidableEq

/-- The `"type"` tag of a step dict. -/
def Step.stype : Step → String
  | .walkToStop _ _ _ _ _ => "WALK_TO_STOP"
  | .wait _ _ => "WAIT"
  | .ride _ _ _ _ _ _ _ => "RIDE"
  | .walkToDest _ _ _ _ => "WALK_TO_DEST"

/-- The `"duration_minutes"` field of a step dict. -/
def Step.duration_minutes : Step → ℚ
  | .walkToStop _ _ d _ _ => d
  | .wait _ d => d
  | .ride _ _ _ d _ _ _ => d
  | .walkToDest _ d _ _ => d

structure RecOption where
  otype : String
  summary : String
  eta_minutes : ℚ
  depart_in_minutes : ℚ
  steps : List Step
deriving Repr, DecidableEq

/-! ## Constants and scoring helpers from `recommendation/service.py` -/

def BUS_SPEED_MPS : ℚ := 6
def USER_STOP_RADIUS_M : ℚ := 800
def DEST_STOP_RADIUS_M : ℚ := 500

/-- `_walk_minutes` from `recommendation/service.py`. -/
def walk_minutes (distance_m walking_speed_mps : ℚ) : ℚ :=
  if walking_speed_mps ≤ 0 then 0
  else distance_m / (walking_speed_mps * 60)

/-- `_ride_minutes_heuristic` from `recommendation/service.py`. -/
def ride_minutes_heuristic (distance_m : ℚ) : ℚ :=
  if BUS_SPEED_MPS ≤ 0 then 0
  else distance_m / (BUS_SPEED_MPS * 60)

/-- `_parse_arrive_by` from `recommendation/service.py`: replace a trailing-Z
timezone marker and hand the string to the stdlib parser (modelled by the
`fromisoformat` parameter, returning POSIX seconds or `none` on failure). -/
def parse_arrive_by (fromisoformat : String → Option ℚ) (arrive_by_iso : String) : Option ℚ :=
  fromisoformat (arrive_by_iso.replace "Z" "+00:00")

/-- The exit-stop selection loop of `compute_recommendations`
(`for sid, sname, slat, slng in dest_stops: ...`): first strict minimum of the
distance to the building, together with that distance (`exit_dist_m`). -/
def find_exit_stop (dist : ℚ → ℚ → ℚ → ℚ → ℚ) (b_lat b_lng : ℚ)
    (dest_stops : List Stop) : Option (Stop × ℚ) :=
  dest_stops.foldl (fun acc s =>
    let d := dist s.slat s.slng b_lat b_lng
    match acc with
    | none => some (s, d)
    | some (s0, d0) => if d < d0 then some (s, d) else some (s0, d0)) none

/-- The WALK option dict built by `compute_recommendations`. -/
def mk_walk_option (destination_building_id : String) (b_lat b_lng : ℚ) (b_name : String)
    (walk_only_min depart_in_walk : ℚ) : RecOption :=
  { otype := "WALK"
  , summary := "Walk to " ++ b_name ++ " (" ++ fmt0f walk_only_min ++ " min)"
  , eta_minutes := round1 walk_only_min
  , depart_in_minutes := round1 depart_in_walk
  , steps := [Step.walkToDest destination_building_id (round1 walk_only_min) b_lat b_lng] }

/-- The BUS option dict built by `compute_recommendations` for one
stop/departure pair. -/
def mkBusOption (destination_building_id : String) (b_lat b_lng : ℚ)
    (exit_stop : Option (Stop × ℚ)) (s : Stop) (route headsign : String)
    (walk_to_stop_min wait_min ride_min walk_from_stop_min total_eta depart_in : ℚ) :
    RecOption :=
  { otype := "BUS"
  , summary := "Bus " ++ route ++ " to " ++ (if headsign = "" then "destination" else headsign)
      ++ " (" ++ fmt0f total_eta ++ " min)"
  , eta_minutes := round1 total_eta
  , depart_in_minutes := round1 depart_in
  , steps :=
      [ Step.walkToStop s.sid s.sname (round1 walk_to_stop_min) s.slat s.slng
      , Step.wait s.sid (round1 wait_min)
      , Step.ride route headsign s.sid (round1 ride_min)
          (exit_stop.map fun p => p.1.sid)
          (exit_stop.map fun p => p.1.slat)
          (exit_stop.map fun p => p.1.slng)
      , Step.walkToDest destination_building_id (round1 walk_from_stop_min) b_lat b_lng ] }

/-- The body of the inner candidate loop of `compute_recommendations`
(`for d in get_departures(stop_id): ...`) for one stop/departure pair: the
stop-dependent quantities (`walk_to_stop_min`, `ride_dist_m`, `ride_min`) are
computed in the outer loop in the source and are recomputed here per
departure, which is identical because they are pure. Returns `none` for a
candidate skipped by the time-budget `continue`. -/
def bus_candidate_for (dist : ℚ → ℚ → ℚ → ℚ → ℚ) (lat lng walk_speed : ℚ)
    (exit_stop : Option (Stop × ℚ))
    (walk_from_stop_min minutes_until_arrival buffer_minutes b_lat b_lng : ℚ)
    (destination_building_id : String) (stop : Stop) (d : Departure) :
    Option (ℚ × RecOption) :=
  let walk_to_stop_m := dist lat lng stop.slat stop.slng
  let walk_to_stop_min := walk_minutes walk_to_stop_m walk_speed
  let ride_dist_m := match exit_stop with
    | some es => dist stop.slat stop.slng es.1.slat es.1.slng
    | none => dist stop.slat stop.slng b_lat b_lng
  let ride_min := ride_minutes_heuristic ride_dist_m
  let route := py_strip (d.route.getD "")
  let headsign := py_strip (d.headsign.getD "")
  let expected_mins : ℤ := d.expected_mins.getD 0
  let wait_min := max 0 ((expected_mins : ℚ) - walk_to_stop_min)
  let total_eta := walk_to_stop_min + wait_min + ride_min + walk_from_stop_min
  if total_eta > minutes_until_arrival - buffer_minutes then none
  else some (total_eta,
    mkBusOption destination_building_id b_lat b_lng exit_stop stop route headsign
      walk_to_stop_min wait_min ride_min walk_from_stop_min total_eta
      (max 0 (minutes_until_arrival - total_eta - buffer_minutes)))

/-- The candidate-generation loops of `compute_recommendations`
(`for stop_id, ... in user_stops: ... for d in get_departures(stop_id): ...`),
accumulating `(score, option)` pairs and skipping over-budget candidates. -/
def bus_candidates (dist : ℚ → ℚ → ℚ → ℚ → ℚ) (get_departures : String → List Departure)
    (lat lng walk_speed : ℚ) (exit_stop : Option (Stop × ℚ))
    (walk_from_stop_min minutes_until_arrival buffer_minutes b_lat b_lng : ℚ)
    (destination_building_id : String) (user_stops : List Stop) : List (ℚ × RecOption) :=
  user_stops.flatMap fun stop =>
    (get_departures stop.sid).filterMap
      (bus_candidate_for dist lat lng walk_speed exit_stop walk_from_stop_min
        minutes_until_arrival buffer_minutes b_lat b_lng destination_building_id stop)

/-- Sort order used for `bus_candidates.sort(key=lambda x: (x[0], x[1]["summary"]))`:
ascending lexicographic on the `(score, summary)` key tuple. -/
def candLe (a b : ℚ × RecOption) : Prop :=
  a.1 < b.1 ∨ (a.1 = b.1 ∧ a.2.summary ≤ b.2.summary)

instance : DecidableRel candLe := fun a b =>
  inferInstanceAs (Decidable (a.1 < b.1 ∨ (a.1 = b.1 ∧ a.2.summary ≤ b.2.summary)))

/-- Sort order used for `options.sort(key=lambda o: (o["eta_minutes"], o["summary"]))`. -/
def optLe (a b : RecOption) : Prop :=
  a.eta_minutes < b.eta_minutes ∨ (a.eta_minutes = b.eta_minutes ∧ a.summary ≤ b.summary)

instance : DecidableRel optLe := fun a b =>
  inferInstanceAs
    (Decidable (a.eta_minutes < b.eta_minutes ∨
      (a.eta_minutes = b.eta_minutes ∧ a.summary ≤ b.summary)))

/-- The ranking/selection tail of `compute_recommendations`: stable-sort the
bus candidates by `(score, summary)`, slice to `max_opts - 1` when a WALK
option exists (else `max_opts`), append the WALK option, stable-sort the
combined list by `(eta_minutes, summary)` and truncate to `max_opts`.
Python's `list.sort` is a stable sort keyed by an ascending tuple order; it is
modelled here by a stable insertion sort with the same key order, which
produces the same list. -/
def rank_options (walkOpt : Option RecOption) (cands : List (ℚ × RecOption))
    (max_opts : ℤ) : List RecOption :=
  let sorted := List.insertionSort candLe cands
  let kept := (sorted.take (if walkOpt.isSome then (max_opts - 1).toNat else max_opts.toNat)).map
    Prod.snd
  let options := kept ++ walkOpt.toList
  (List.insertionSort optLe options).take max_opts.toNat

/-- `compute_recommendations` from `recommendation/service.py`.  The
injected capabilities `get_building`, `search_nearby_stops` and
`get_departures` are parameters as in the source; the distance provider
`dist` (= `haversine_distance_m` of `data/geo.py`) and the stdlib timestamp
parser `fromisoformat` are likewise parameters.  `now` is passed as a POSIX
timestamp `now_ts` (the source defaults it to the wall clock, which is
injected here).  The `raise ValueError("invalid_arrive_by")` is modelled by
the `Except.error` branch. -/
def compute_recommendations (dist : ℚ → ℚ → ℚ → ℚ → ℚ)
    (fromisoformat : String → Option ℚ)
    (lat lng : ℚ) (destination_building_id : String)
    (destination_lat destination_lng : ℚ) (destination_name : String)
    (arrive_by_iso : String) (walking_speed_mps buffer_minutes : ℚ) (max_options : ℤ)
    (now_ts : ℚ)
    (get_building : String → Option (ℚ × ℚ × String))
    (search_nearby_stops : ℚ → ℚ → ℚ → ℤ → List Stop)
    (get_departures : String → List Departure) : Except String (List RecOption) :=
  match parse_arrive_by fromisoformat arrive_by_iso with
  | none => .error "invalid_arrive_by"
  | some arrive_by_ts =>
    let b_lat := destination_lat
    let b_lng := destination_lng
    let b_name := destination_name
    let walk_speed := max (1/10) walking_speed_mps
    let max_opts : ℤ := max 1 (min 10 max_options)
    let dist_user_building_m := dist lat lng b_lat b_lng
    let walk_only_min := walk_minutes dist_user_building_m walk_speed
    let minutes_until_arrival := (arrive_by_ts - now_ts) / 60
    let depart_in_walk := max 0 (minutes_until_arrival - walk_only_min - buffer_minutes)
    let walkOpt : Option RecOption :=
      if now_ts + depart_in_walk * 60 ≤ arrive_by_ts + 1 then
        some (mk_walk_option destination_building_id b_lat b_lng b_name walk_only_min
          depart_in_walk)
      else none
    let user_stops := search_nearby_stops lat lng USER_STOP_RADIUS_M 10
    let dest_stops := search_nearby_stops b_lat b_lng DEST_STOP_RADIUS_M 5
    let exit_stop := find_exit_stop dist b_lat b_lng dest_stops
    let walk_from_stop_min := match exit_stop with
      | some es => walk_minutes es.2 walk_speed
      | none => 5
    let cands := bus_candidates dist get_departures lat lng walk_speed exit_stop
      walk_from_stop_min minutes_until_arrival buffer_minutes b_lat b_lng
      destination_building_id user_stops
    .ok (rank_options walkOpt cands max_opts)

/-! ## Great-circle distance, from `src/backend/src/data/geo.py`, over `ℝ` -/

def EARTH_RADIUS_KM : ℝ := 6371

/-- Python `math.radians`. -/
noncomputable def radians (x : ℝ) : ℝ := x * (Real.pi / 180)

/-- Python `math.atan2` (two-argument arctangent, standard convention). -/
noncomputable def atan2 (y x : ℝ) : ℝ :=
  if 0 < x then Real.arctan (y / x)
  else if x < 0 then
    (if 0 ≤ y then Real.arctan (y / x) + Real.pi else Real.arctan (y / x) - Real.pi)
  else
    (if 0 < y then Real.pi / 2 else if y < 0 then -(Real.pi / 2) else 0)

/-- `haversine_distance_km` from `data/geo.py`. -/
noncomputable def haversine_distance_km (lat1 lng1 lat2 lng2 : ℝ) : ℝ :=
  let lat1_rad := radians lat1
  let lat2_rad := radians lat2
  let dlat := radians (lat2 - lat1)
  let dlng := radians (lng2 - lng1)
  let a := Real.sin (dlat / 2) ^ 2 +
    Real.cos lat1_rad * Real.cos lat2_rad * Real.sin (dlng / 2) ^ 2
  let c := 2 * atan2 (Real.sqrt a) (Real.sqrt (1 - a))
  EARTH_RADIUS_KM * c

/-- `haversine_distance_m` from `data/geo.py`. -/
noncomputable def haversine_distance_m (lat1 lng1 lat2 lng2 : ℝ) : ℝ :=
  haversine_distance_km lat1 lng1 lat2 lng2 * 1000

/-! ## Helper lemmas -/

theorem roundHalfEven_sub_abs_le (q : ℚ) : |((roundHalfEven q : ℤ) : ℚ) - q| ≤ 1/2 := by
  unfold roundHalfEven
  have h0 : (0 : ℚ) ≤ q - (⌊q⌋ : ℚ) := by
    have := Int.floor_le q
    linarith
  have h1 : q - (⌊q⌋ : ℚ) < 1 := by
    have := Int.lt_floor_add_one q
    linarith
  by_cases hlt : q - (⌊q⌋ : ℚ) < 1/2
  · simp only [hlt, if_true]
    rw [abs_le]
    constructor <;> linarith
  · by_cases hgt : 1/2 < q - (⌊q⌋ : ℚ)
    · simp only [hlt, hgt, if_true, if_false]
      rw [abs_le]
      push_cast
      constructor <;> linarith
    · by_cases hev : ⌊q⌋ % 2 = 0
      · simp only [hlt, hgt, hev, if_true, if_false]
        rw [abs_le]
        constructor <;> linarith
      · simp only [hlt, hgt, hev, if_true, if_false]
        rw [abs_le]
        push_cast
        constructor <;> linarith

theorem round1_sub_abs_le (q : ℚ) : |round1 q - q| ≤ 1/20 := by
  unfold round1
  have h := roundHalfEven_sub_abs_le (10 * q)
  have h2 : ((roundHalfEven (10 * q) : ℤ) : ℚ) / 10 - q
      = (((roundHalfEven (10 * q) : ℤ) : ℚ) - 10 * q) / 10 := by ring
  rw [h2, abs_div]
  have h3 : |(10 : ℚ)| = 10 := by norm_num
  rw [h3]
  linarith

theorem walk_minutes_nonneg {d s : ℚ} (hd : 0 ≤ d) : 0 ≤ walk_minutes d s := by
  unfold walk_minutes
  by_cases hs : s ≤ 0
  · simp [hs]
  · simp only [hs, if_false]
    push_neg at hs
    positivity

theorem ride_minutes_heuristic_eq (d : ℚ) : ride_minutes_heuristic d = d / (6 * 60) := by
  norm_num [ride_minutes_heuristic, BUS_SPEED_MPS]

instance : IsTrans (ℚ × RecOption) candLe := by
  constructor
  intro a b c hab hbc
  rcases hab with h1 | ⟨h1, h1s⟩ <;> rcases hbc with h2 | ⟨h2, h2s⟩
  · exact Or.inl (lt_trans h1 h2)
  · exact Or.inl (h2 ▸ h1)
  · exact Or.inl (h1 ▸ h2)
  · exact Or.inr ⟨h1.trans h2, le_trans h1s h2s⟩

instance : IsTotal (ℚ × RecOption) candLe := by
  constructor
  intro a b
  rcases lt_trichotomy a.1 b.1 with h | h | h
  · exact Or.inl (Or.inl h)
  · rcases le_total a.2.summary b.2.summary with hs | hs
    · exact Or.inl (Or.inr ⟨h, hs⟩)
    · exact Or.inr (Or.inr ⟨h.symm, hs⟩)
  · exact Or.inr (Or.inl h)

instance : IsTrans RecOption optLe := by
  constructor
  intro a b c hab hbc
  rcases hab with h1 | ⟨h1, h1s⟩ <;> rcases hbc with h2 | ⟨h2, h2s⟩
  · exact Or.inl (lt_trans h1 h2)
  · exact Or.inl (h2 ▸ h1)
  · exact Or.inl (h1 ▸ h2)
  · exact Or.inr ⟨h1.trans h2, le_trans h1s h2s⟩

instance : IsTotal RecOption optLe := by
  constructor
  intro a b
  rcases lt_trichotomy a.eta_minutes b.eta_minutes with h | h | h
  · exact Or.inl (Or.inl h)
  · rcases le_total a.summary b.summary with hs | hs
    · exact Or.inl (Or.inr ⟨h, hs⟩)
    · exact Or.inr (Or.inr ⟨h.symm, hs⟩)
  · exact Or.inr (Or.inl h)

theorem length_rank_options_le (w : Option RecOption) (cands : List (ℚ × RecOption))
    (m : ℤ) : (rank_options w cands m).length ≤ m.toNat := by
  unfold rank_options
  exact List.length_take_le _ _

theorem sorted_rank_options (w : Option RecOption) (cands : List (ℚ × RecOption))
    (m : ℤ) : List.Pairwise optLe (rank_options w cands m) := by
  unfold rank_options
  exact List.Pairwise.sublist (List.take_sublist _ _) (List.sorted_insertionSort optLe _)

theorem mem_rank_options {o : RecOption} {w : Option RecOption}
    {cands : List (ℚ × RecOption)} {m : ℤ} (h : o ∈ rank_options w cands m) :
    (∃ p ∈ cands, p.2 = o) ∨ w = some o := by
  unfold rank_options at h
  have h1 := (List.take_sublist _ _).subset h
  rw [(List.perm_insertionSort optLe _).mem_iff, List.mem_append] at h1
  rcases h1 with h1 | h1
  · left
    rw [List.mem_map] at h1
    obtain ⟨p, hp, hpo⟩ := h1
    refine ⟨p, ?_, hpo⟩
    exact (List.perm_insertionSort candLe _).mem_iff.mp ((List.take_sublist _ _).subset hp)
  · right
    rw [Option.mem_toList] at h1
    exact Option.mem_def.mp h1

/-- Unfold `compute_recommendations` on a parsable deadline into its three
phases (walk option, candidate generation, ranking). -/
theorem compute_recommendations_ok (dist : ℚ → ℚ → ℚ → ℚ → ℚ)
    (fromisoformat : String → Option ℚ) (lat lng : ℚ) (dbid : String)
    (blat blng : ℚ) (bname iso : String) (ws buf : ℚ) (mo : ℤ) (now_ts : ℚ)
    (gb : String → Option (ℚ × ℚ × String)) (sns : ℚ → ℚ → ℚ → ℤ → List Stop)
    (gd : String → List Departure) (ats : ℚ)
    (hp : parse_arrive_by fromisoformat iso = some ats) :
    compute_recommendations dist fromisoformat lat lng dbid blat blng bname iso ws buf mo
        now_ts gb sns gd =
      .ok (rank_options
        (if now_ts + (max 0 ((ats - now_ts) / 60
              - walk_minutes (dist lat lng blat blng) (max (1/10) ws) - buf)) * 60 ≤ ats + 1
          then some (mk_walk_option dbid blat blng bname
            (walk_minutes (dist lat lng blat blng) (max (1/10) ws))
            (max 0 ((ats - now_ts) / 60
              - walk_minutes (dist lat lng blat blng) (max (1/10) ws) - buf)))
          else none)
        (bus_candidates dist gd lat lng (max (1/10) ws)
          (find_exit_stop dist blat blng (sns blat blng DEST_STOP_RADIUS_M 5))
          (match find_exit_stop dist blat blng (sns blat blng DEST_STOP_RADIUS_M 5) with
            | some es => walk_minutes es.2 (max (1/10) ws)
            | none => 5)
          ((ats - now_ts) / 60) buf blat blng dbid (sns lat lng USER_STOP_RADIUS_M 10))
        (max 1 (min 10 mo))) := by
  unfold compute_recommendations
  rw [hp]

theorem mem_bus_candidates_iff (dist : ℚ → ℚ → ℚ → ℚ → ℚ) (gd : String → List Departure)
    (lat lng ws : ℚ) (es : Option (Stop × ℚ)) (wfs mins buf blat blng : ℚ)
    (dbid : String) (stops : List Stop) (p : ℚ × RecOption) :
    p ∈ bus_candidates dist gd lat lng ws es wfs mins buf blat blng dbid stops ↔
      ∃ s ∈ stops, ∃ d ∈ gd s.sid,
        bus_candidate_for dist lat lng ws es wfs mins buf blat blng dbid s d = some p := by
  simp [bus_candidates, List.mem_flatMap, List.mem_filterMap]

theorem bus_candidate_for_eq_some_iff (dist : ℚ → ℚ → ℚ → ℚ → ℚ) (lat lng ws : ℚ)
    (es : Option (Stop × ℚ)) (wfs mins buf blat blng : ℚ) (dbid : String)
    (s : Stop) (d : Departure) (p : ℚ × RecOption) :
    bus_candidate_for dist lat lng ws es wfs mins buf blat blng dbid s d = some p ↔
      (walk_minutes (dist lat lng s.slat s.slng) ws
          + max 0 (((d.expected_mins.getD 0 : ℤ) : ℚ)
              - walk_minutes (dist lat lng s.slat s.slng) ws)
          + ride_minutes_heuristic (match es with
              | some e => dist s.slat s.slng e.1.slat e.1.slng
              | none => dist s.slat s.slng blat blng)
          + wfs ≤ mins - buf) ∧
      p = (walk_minutes (dist lat lng s.slat s.slng) ws
          + max 0 (((d.expected_mins.getD 0 : ℤ) : ℚ)
              - walk_minutes (dist lat lng s.slat s.slng) ws)
          + ride_minutes_heuristic (match es with
              | some e => dist s.slat s.slng e.1.slat e.1.slng
              | none => dist s.slat s.slng blat blng)
          + wfs,
        mkBusOption dbid blat blng es s (py_strip (d.route.getD ""))
          (py_strip (d.headsign.getD ""))
          (walk_minutes (dist lat lng s.slat s.slng) ws)
          (max 0 (((d.expected_mins.getD 0 : ℤ) : ℚ)
              - walk_minutes (dist lat lng s.slat s.slng) ws))
          (ride_minutes_heuristic (match es with
              | some e => dist s.slat s.slng e.1.slat e.1.slng
              | none => dist s.slat s.slng blat blng))
          wfs
          (walk_minutes (dist lat lng s.slat s.slng) ws
            + max 0 (((d.expected_mins.getD 0 : ℤ) : ℚ)
                - walk_minutes (dist lat lng s.slat s.slng) ws)
            + ride_minutes_heuristic (match es with
                | some e => dist s.slat s.slng e.1.slat e.1.slng
                | none => dist s.slat s.slng blat blng)
            + wfs)
          (max 0 (mins
            - (walk_minutes (dist lat lng s.slat s.slng) ws
              + max 0 (((d.expected_mins.getD 0 : ℤ) : ℚ)
                  - walk_minutes (dist lat lng s.slat s.slng) ws)
              + ride_minutes_heuristic (match es with
                  | some e => dist s.slat s.slng e.1.slat e.1.slng
                  | none => dist s.slat s.slng blat blng)
              + wfs)
            - buf))) := by
  unfold bus_candidate_for
  dsimp only
  split_ifs with h
  · constructor
    · intro hc
      exact absurd hc (by simp)
    · intro hc
      exact absurd hc.1 (not_le.mpr h)
  · rw [not_lt] at h
    constructor
    · intro hc
      exact ⟨h, (Option.some_inj.mp hc).symm⟩
    · intro hc
      rw [hc.2]

theorem mem_bus_candidates_shape {dist : ℚ → ℚ → ℚ → ℚ → ℚ} {gd : String → List Departure}
    {lat lng ws : ℚ} {es : Option (Stop × ℚ)} {wfs mins buf blat blng : ℚ}
    {dbid : String} {stops : List Stop} {p : ℚ × RecOption}
    (h : p ∈ bus_candidates dist gd lat lng ws es wfs mins buf blat blng dbid stops) :
    ∃ s r hd wts wt rd,
      wts + wt + rd + wfs ≤ mins - buf ∧
      p = (wts + wt + rd + wfs,
        mkBusOption dbid blat blng es s r hd wts wt rd wfs (wts + wt + rd + wfs)
          (max 0 (mins - (wts + wt + rd + wfs) - buf))) := by
  rw [mem_bus_candidates_iff] at h
  obtain ⟨s, hs, d, hd, hc⟩ := h
  rw [bus_candidate_for_eq_some_iff] at hc
  exact ⟨s, _, _, _, _, _, hc.1, hc.2⟩

theorem walk_cond_iff (now_ts ats w buf : ℚ) (hw : 0 ≤ w) (hb : 0 ≤ buf) :
    (now_ts + (max 0 ((ats - now_ts) / 60 - w - buf)) * 60 ≤ ats + 1) ↔ now_ts ≤ ats + 1 := by
  have hm : ((ats - now_ts) / 60) * 60 = ats - now_ts := by
    field_simp
  rcases le_or_lt ((ats - now_ts) / 60 - w - buf) 0 with h | h
  · rw [max_eq_left h]
    constructor <;> intro h2 <;> linarith
  · rw [max_eq_right h.le]
    constructor
    · intro h2
      nlinarith
    · intro h2
      nlinarith

theorem rank_options_none_nil (m : ℤ) : rank_options none [] m = [] := by
  simp [rank_options, List.insertionSort]

theorem rank_options_some_nil (w : RecOption) (m : ℤ) (hm : 1 ≤ m) :
    rank_options (some w) [] m = [w] := by
  unfold rank_options
  dsimp only
  have h1 : List.insertionSort candLe ([] : List (ℚ × RecOption)) = [] := rfl
  rw [h1]
  simp only [List.take_nil, List.map_nil, List.nil_append, Option.toList_some]
  have h2 : List.insertionSort optLe [w] = [w] := rfl
  rw [h2]
  cases hmt : m.toNat with
  | zero => omega
  | succ k => simp [List.take_succ_cons]

theorem compute_recommendations_error (dist : ℚ → ℚ → ℚ → ℚ → ℚ)
    (fromisoformat : String → Option ℚ) (lat lng : ℚ) (dbid : String)
    (blat blng : ℚ) (bname iso : String) (ws buf : ℚ) (mo : ℤ) (now_ts : ℚ)
    (gb : String → Option (ℚ × ℚ × String)) (sns : ℚ → ℚ → ℚ → ℤ → List Stop)
    (gd : String → List Departure)
    (hp : parse_arrive_by fromisoformat iso = none) :
    compute_recommendations dist fromisoformat lat lng dbid blat blng bname iso ws buf mo
      now_ts gb sns gd = .error "invalid_arrive_by" := by
  unfold compute_recommendations
  rw [hp]

/-- C9: `compute_recommendations` never invokes its `get_building` capability:
for any two values of that parameter and otherwise identical inputs, the
result is identical. -/
theorem C9_get_building_unused (dist : ℚ → ℚ → ℚ → ℚ → ℚ)
    (fromisoformat : String → Option ℚ) (lat lng : ℚ) (dbid : String)
    (blat blng : ℚ) (bname iso : String) (ws buf : ℚ) (mo : ℤ) (now_ts : ℚ)
    (gb1 gb2 : String → Option (ℚ × ℚ × String)) (sns : ℚ → ℚ → ℚ → ℤ → List Stop)
    (gd : String → List Departure) :
    compute_recommendations dist fromisoformat lat lng dbid blat blng bname iso ws buf mo
        now_ts gb1 sns gd =
      compute_recommendations dist fromisoformat lat lng dbid blat blng bname iso ws buf mo
        now_ts gb2 sns gd := rfl

/-- C7: an unparsable `arrive_by_iso` makes `compute_recommendations` raise
the invalid-input error (and nothing else is returned); a parsable one never
raises it and yields a result list. -/
theorem C7_unparsable_deadline (dist : ℚ → ℚ → ℚ → ℚ → ℚ)
    (fromisoformat : String → Option ℚ) (lat lng : ℚ) (dbid : String)
    (blat blng : ℚ) (bname iso : String) (ws buf : ℚ) (mo : ℤ) (now_ts : ℚ)
    (gb : String → Option (ℚ × ℚ × String)) (sns : ℚ → ℚ → ℚ → ℤ → List Stop)
    (gd : String → List Departure) :
    (compute_recommendations dist fromisoformat lat lng dbid blat blng bname iso ws buf mo
        now_ts gb sns gd = .error "invalid_arrive_by"
      ↔ parse_arrive_by fromisoformat iso = none) ∧
    (∀ ats, parse_arrive_by fromisoformat iso = some ats →
      ∃ l, compute_recommendations dist fromisoformat lat lng dbid blat blng bname iso ws
        buf mo now_ts gb sns gd = .ok l) := by
  cases hp : parse_arrive_by fromisoformat iso with
  | none =>
    refine ⟨?_, ?_⟩
    · rw [compute_recommendations_error _ _ _ _ _ _ _ _ _ _ _ _ _ _ _ _ hp]
      simp
    · intro ats hats
      exact absurd hats (by simp)
  | some a =>
    refine ⟨?_, ?_⟩
    · rw [compute_recommendations_ok _ _ _ _ _ _ _ _ _ _ _ _ _ _ _ _ a hp]
      simp
    · intro ats hats
      exact ⟨_, compute_recommendations_ok _ _ _ _ _ _ _ _ _ _ _ _ _ _ _ _ a hp⟩

/-- C7 witness: with a parser that accepts the string, the engine returns a
result list. -/
theorem C7_unparsable_deadline_witness :
    ∃ l, compute_recommendations (fun _ _ _ _ => 840) (fun _ => some 3600) 0 0 "b" 1 1
      "Dest" "t" (7/5) 5 3 0 (fun _ => none) (fun _ _ _ _ => []) (fun _ => [])
      = .ok l :=
  (C7_unparsable_deadline (fun _ _ _ _ => 840) (fun _ => some 3600) 0 0 "b" 1 1
    "Dest" "t" (7/5) 5 3 0 (fun _ => none) (fun _ _ _ _ => []) (fun _ => [])).2 3600 rfl

/-- C10: the engine clamps `max_options` to the range 1..10: the returned
list never has more than `min 10 (max 1 max_options)` entries. -/
theorem C10_max_options_clamped (dist : ℚ → ℚ → ℚ → ℚ → ℚ)
    (fromisoformat : String → Option ℚ) (lat lng : ℚ) (dbid : String)
    (blat blng : ℚ) (bname iso : String) (ws buf : ℚ) (mo : ℤ) (now_ts : ℚ)
    (gb : String → Option (ℚ × ℚ × String)) (sns : ℚ → ℚ → ℚ → ℤ → List Stop)
    (gd : String → List Departure) (l : List RecOption)
    (hl : compute_recommendations dist fromisoformat lat lng dbid blat blng bname iso ws
      buf mo now_ts gb sns gd = .ok l) :
    (l.length : ℤ) ≤ min 10 (max 1 mo) := by
  cases hp : parse_arrive_by fromisoformat iso with
  | none =>
    rw [compute_recommendations_error _ _ _ _ _ _ _ _ _ _ _ _ _ _ _ _ hp] at hl
    exact absurd hl (by simp)
  | some ats =>
    rw [compute_recommendations_ok _ _ _ _ _ _ _ _ _ _ _ _ _ _ _ _ ats hp] at hl
    injection hl with hl
    have h := length_rank_options_le
      (if now_ts + (max 0 ((ats - now_ts) / 60
            - walk_minutes (dist lat lng blat blng) (max (1/10) ws) - buf)) * 60 ≤ ats + 1
        then some (mk_walk_option dbid blat blng bname
          (walk_minutes (dist lat lng blat blng) (max (1/10) ws))
          (max 0 ((ats - now_ts) / 60
            - walk_minutes (dist lat lng blat blng) (max (1/10) ws) - buf)))
        else none)
      (bus_candidates dist gd lat lng (max (1/10) ws)
        (find_exit_stop dist blat blng (sns blat blng DEST_STOP_RADIUS_M 5))
        (match find_exit_stop dist blat blng (sns blat blng DEST_STOP_RADIUS_M 5) with
          | some es => walk_minutes es.2 (max (1/10) ws)
          | none => 5)
        ((ats - now_ts) / 60) buf blat blng dbid (sns lat lng USER_STOP_RADIUS_M 10))
      (max 1 (min 10 mo))
    rw [hl] at h
    omega

/-- C10 witness: a call with `max_options = 0` still returns one option. -/
theorem C10_max_options_clamped_witness :
    (([⟨"WALK", "Walk to Dest (10 min)", 10, 45,
        [Step.walkToDest "b" 10 1 1]⟩] : List RecOption).length : ℤ)
      ≤ min 10 (max 1 0) :=
  C10_max_options_clamped (fun _ _ _ _ => 840) (fun _ => some 3600) 0 0 "b" 1 1 "Dest"
    "t" (7/5) 5 0 0 (fun _ => none) (fun _ _ _ _ => []) (fun _ => []) _
    (by with_unfolding_all rfl)

/-- C3: with `max_options ≥ 1` the returned list has at most `max_options`
entries and is sorted ascending by `eta_minutes` with ties broken by the
summary string. -/
theorem C3_output_sorted_and_bounded (dist : ℚ → ℚ → ℚ → ℚ → ℚ)
    (fromisoformat : String → Option ℚ) (lat lng : ℚ) (dbid : String)
    (blat blng : ℚ) (bname iso : String) (ws buf : ℚ) (mo : ℤ) (now_ts : ℚ)
    (gb : String → Option (ℚ × ℚ × String)) (sns : ℚ → ℚ → ℚ → ℤ → List Stop)
    (gd : String → List Departure) (l : List RecOption) (hmo : 1 ≤ mo)
    (hl : compute_recommendations dist fromisoformat lat lng dbid blat blng bname iso ws
      buf mo now_ts gb sns gd = .ok l) :
    l.length ≤ mo.toNat ∧
    l.Pairwise (fun a b => a.eta_minutes < b.eta_minutes ∨
      (a.eta_minutes = b.eta_minutes ∧ a.summary ≤ b.summary)) := by
  cases hp : parse_arrive_by fromisoformat iso with
  | none =>
    rw [compute_recommendations_error _ _ _ _ _ _ _ _ _ _ _ _ _ _ _ _ hp] at hl
    exact absurd hl (by simp)
  | some ats =>
    rw [compute_recommendations_ok _ _ _ _ _ _ _ _ _ _ _ _ _ _ _ _ ats hp] at hl
    injection hl with hl
    rw [← hl]
    constructor
    · exact le_trans (length_rank_options_le _ _ _) (by omega)
    · exact sorted_rank_options _ _ _

/-- C3 witness: a two-option result (walk and bus) is within the bound and
sorted. -/
theorem C3_output_sorted_and_bounded_witness :
    ([⟨"WALK", "Walk to Dest (1 min)", 7/5, 268/5, [Step.walkToDest "b" (7/5) 1 1]⟩,
      ⟨"BUS", "Bus 5 to Lincoln (5 min)", 11/2, 99/2,
        [Step.walkToStop "s1" "Stop One" (1/5) 2 2, Step.wait "s1" 0,
          Step.ride "5" "Lincoln" "s1" (1/5) none none none,
          Step.walkToDest "b" 5 1 1]⟩] : List RecOption).length ≤ (3 : ℤ).toNat ∧
    ([⟨"WALK", "Walk to Dest (1 min)", 7/5, 268/5, [Step.walkToDest "b" (7/5) 1 1]⟩,
      ⟨"BUS", "Bus 5 to Lincoln (5 min)", 11/2, 99/2,
        [Step.walkToStop "s1" "Stop One" (1/5) 2 2, Step.wait "s1" 0,
          Step.ride "5" "Lincoln" "s1" (1/5) none none none,
          Step.walkToDest "b" 5 1 1]⟩] : List RecOption).Pairwise
      (fun a b => a.eta_minutes < b.eta_minutes ∨
        (a.eta_minutes = b.eta_minutes ∧ a.summary ≤ b.summary)) :=
  C3_output_sorted_and_bounded
    (fun a _ c _ => if a = 0 ∧ c = 1 then 84 else if a = 0 ∧ c = 2 then 72/5 else 432/5)
    (fun _ => some 3600) 0 0 "b" 1 1 "Dest" "t" 1 5 3 0 (fun _ => none)
    (fun _ _ r _ => if r = 800 then [⟨"s1", "Stop One", 2, 2⟩] else [])
    (fun _ => [⟨some "5", some "Lincoln", some 0⟩]) _ (by norm_num)
    (by set_option maxRecDepth 100000 in with_unfolding_all rfl)

theorem bus_candidates_nil (dist : ℚ → ℚ → ℚ → ℚ → ℚ) (gd : String → List Departure)
    (lat lng ws : ℚ) (es : Option (Stop × ℚ)) (wfs mins buf blat blng : ℚ)
    (dbid : String) :
    bus_candidates dist gd lat lng ws es wfs mins buf blat blng dbid [] = [] := rfl

/-- C1 counterexample: with no stops and no departures and a straight-line
walk time (100 min) far exceeding the remaining budget (10 min deadline minus
5 min buffer), the engine still returns the WALK option instead of the empty
list the claim requires. -/
theorem C1_counterexample :
    walk_minutes 8400 (max (1/10) (7/5)) > (600 - 0) / 60 - 5 ∧
    compute_recommendations (fun _ _ _ _ => 8400) (fun _ => some 600) 0 0 "b" 1 1 "Dest"
        "t" (7/5) 5 3 0 (fun _ => none) (fun _ _ _ _ => []) (fun _ => [])
      = .ok [⟨"WALK", "Walk to Dest (100 min)", 100, 0, [Step.walkToDest "b" 100 1 1]⟩] := by
  constructor
  · norm_num [walk_minutes]
  · with_unfolding_all rfl

/-- C1 amended: with no stops and no departures (and a nonneg buffer and
distance), the result is exactly one WALK option whenever the evaluation
instant is at most one second past the deadline (`now_ts ≤ arrive_by_ts + 1`),
regardless of whether the walk time fits the budget, and the empty list
otherwise. -/
theorem C1_no_stops_walk_only (dist : ℚ → ℚ → ℚ → ℚ → ℚ)
    (fromisoformat : String → Option ℚ) (lat lng : ℚ) (dbid : String)
    (blat blng : ℚ) (bname iso : String) (ws buf : ℚ) (mo : ℤ) (now_ts : ℚ)
    (gb : String → Option (ℚ × ℚ × String)) (sns : ℚ → ℚ → ℚ → ℤ → List Stop)
    (gd : String → List Departure) (ats : ℚ)
    (hp : parse_arrive_by fromisoformat iso = some ats)
    (hs : ∀ a b r k, sns a b r k = [])
    (hdep : ∀ s, gd s = [])
    (hb : 0 ≤ buf) (hd : 0 ≤ dist lat lng blat blng) :
    ∃ w : RecOption, w.otype = "WALK" ∧ w.steps.map Step.stype = ["WALK_TO_DEST"] ∧
      compute_recommendations dist fromisoformat lat lng dbid blat blng bname iso ws buf
          mo now_ts gb sns gd
        = .ok (if now_ts ≤ ats + 1 then [w] else []) := by
  rw [compute_recommendations_ok _ _ _ _ _ _ _ _ _ _ _ _ _ _ _ _ ats hp]
  refine ⟨mk_walk_option dbid blat blng bname
    (walk_minutes (dist lat lng blat blng) (max (1/10) ws))
    (max 0 ((ats - now_ts) / 60
      - walk_minutes (dist lat lng blat blng) (max (1/10) ws) - buf)), rfl, rfl, ?_⟩
  rw [hs lat lng USER_STOP_RADIUS_M 10, hs blat blng DEST_STOP_RADIUS_M 5,
    bus_candidates_nil]
  by_cases hc : now_ts ≤ ats + 1
  · rw [if_pos hc,
      if_pos ((walk_cond_iff now_ts ats _ buf (walk_minutes_nonneg hd) hb).mpr hc),
      rank_options_some_nil _ _ (le_max_left _ _)]
  · rw [if_neg hc,
      if_neg (fun h => hc ((walk_cond_iff now_ts ats _ buf
        (walk_minutes_nonneg hd) hb).mp h)),
      rank_options_none_nil]

/-- C1 witness: no stops, walk feasible, deadline an hour away: exactly the
WALK option is returned. -/
theorem C1_no_stops_walk_only_witness :
    ∃ w : RecOption, w.otype = "WALK" ∧ w.steps.map Step.stype = ["WALK_TO_DEST"] ∧
      compute_recommendations (fun _ _ _ _ => 840) (fun _ => some 3600) 0 0 "b" 1 1
          "Dest" "t" (7/5) 5 3 0 (fun _ => none) (fun _ _ _ _ => []) (fun _ => [])
        = .ok (if (0 : ℚ) ≤ 3600 + 1 then [w] else []) :=
  C1_no_stops_walk_only (fun _ _ _ _ => 840) (fun _ => some 3600) 0 0 "b" 1 1 "Dest" "t"
    (7/5) 5 3 0 (fun _ => none) (fun _ _ _ _ => []) (fun _ => []) 3600 rfl
    (fun _ _ _ _ => rfl) (fun _ => rfl) (by norm_num) (by norm_num)

/-- C5 counterexample: with `walking_speed_mps = 0` the engine neither
crashes nor excludes the WALK option: the speed is clamped to 0.1 m/s (a 60 m
distance then takes 10 min) and the WALK option is returned. -/
theorem C5_counterexample :
    compute_recommendations (fun _ _ _ _ => 60) (fun _ => some 3600) 0 0 "b" 1 1 "Dest"
        "t" 0 5 3 0 (fun _ => none) (fun _ _ _ _ => []) (fun _ => [])
      = .ok [⟨"WALK", "Walk to Dest (10 min)", 10, 45, [Step.walkToDest "b" 10 1 1]⟩] := by
  with_unfolding_all rfl

/-- C5 amended: for any `walking_speed_mps ≤ 0` the engine does not divide by
zero or fail: the speed is clamped to the positive minimum 0.1 m/s, the
result equals the one computed at speed 0.1, and on a parsable deadline the
call returns a result list (the WALK option is not excluded). -/
theorem C5_zero_speed_clamped (dist : ℚ → ℚ → ℚ → ℚ → ℚ)
    (fromisoformat : String → Option ℚ) (lat lng : ℚ) (dbid : String)
    (blat blng : ℚ) (bname iso : String) (ws buf : ℚ) (mo : ℤ) (now_ts : ℚ)
    (gb : String → Option (ℚ × ℚ × String)) (sns : ℚ → ℚ → ℚ → ℤ → List Stop)
    (gd : String → List Departure) (hws : ws ≤ 0) :
    compute_recommendations dist fromisoformat lat lng dbid blat blng bname iso ws buf mo
        now_ts gb sns gd
      = compute_recommendations dist fromisoformat lat lng dbid blat blng bname iso
        (1/10) buf mo now_ts gb sns gd ∧
    (∀ ats, parse_arrive_by fromisoformat iso = some ats →
      ∃ l, compute_recommendations dist fromisoformat lat lng dbid blat blng bname iso ws
        buf mo now_ts gb sns gd = .ok l) := by
  have hmax : max (1/10 : ℚ) ws = max (1/10 : ℚ) (1/10) := by
    rw [max_self, max_eq_left (hws.trans (by norm_num))]
  constructor
  · cases hp : parse_arrive_by fromisoformat iso with
    | none =>
      rw [compute_recommendations_error _ _ _ _ _ _ _ _ _ _ _ _ _ _ _ _ hp,
        compute_recommendations_error _ _ _ _ _ _ _ _ _ _ _ _ _ _ _ _ hp]
    | some ats =>
      rw [compute_recommendations_ok _ _ _ _ _ _ _ _ _ _ _ _ _ _ _ _ ats hp,
        compute_recommendations_ok _ _ _ _ _ _ _ _ _ _ _ _ _ _ _ _ ats hp, hmax]
  · intro ats hats
    exact ⟨_, compute_recommendations_ok _ _ _ _ _ _ _ _ _ _ _ _ _ _ _ _ ats hats⟩

/-- C5 witness: at walking speed 0 the result equals the speed-0.1 result and
a result list is returned. -/
theorem C5_zero_speed_clamped_witness :
    compute_recommendations (fun _ _ _ _ => 60) (fun _ => some 3600) 0 0 "b" 1 1 "Dest"
        "t" 0 5 3 0 (fun _ => none) (fun _ _ _ _ => []) (fun _ => [])
      = compute_recommendations (fun _ _ _ _ => 60) (fun _ => some 3600) 0 0 "b" 1 1
        "Dest" "t" (1/10) 5 3 0 (fun _ => none) (fun _ _ _ _ => []) (fun _ => []) ∧
    ∃ l, compute_recommendations (fun _ _ _ _ => 60) (fun _ => some 3600) 0 0 "b" 1 1
      "Dest" "t" 0 5 3 0 (fun _ => none) (fun _ _ _ _ => []) (fun _ => []) = .ok l :=
  ⟨(C5_zero_speed_clamped (fun _ _ _ _ => 60) (fun _ => some 3600) 0 0 "b" 1 1 "Dest"
      "t" 0 5 3 0 (fun _ => none) (fun _ _ _ _ => []) (fun _ => []) le_rfl).1,
    (C5_zero_speed_clamped (fun _ _ _ _ => 60) (fun _ => some 3600) 0 0 "b" 1 1 "Dest"
      "t" 0 5 3 0 (fun _ => none) (fun _ _ _ _ => []) (fun _ => []) le_rfl).2 3600 rfl⟩

/-- C2: a `(score, option)` pair is generated for exactly the stop/departure
pairs whose total eta — walk-to-stop + wait (`max 0` of minutes-until-arrival
minus walk-to-stop) + ride (straight-line distance to the exit stop, or to
the destination when none exists, at the fixed 6 m/s bus speed) +
walk-from-stop — does not exceed the minutes remaining until the deadline
minus the buffer; its score is that total and its option carries the rounded
component durations. -/
theorem C2_candidate_formulas (dist : ℚ → ℚ → ℚ → ℚ → ℚ) (gd : String → List Departure)
    (lat lng ws : ℚ) (es : Option (Stop × ℚ)) (wfs mins buf blat blng : ℚ)
    (dbid : String) (stops : List Stop) (p : ℚ × RecOption) :
    p ∈ bus_candidates dist gd lat lng ws es wfs mins buf blat blng dbid stops ↔
      ∃ s ∈ stops, ∃ d ∈ gd s.sid,
        (walk_minutes (dist lat lng s.slat s.slng) ws
            + max 0 (((d.expected_mins.getD 0 : ℤ) : ℚ)
                - walk_minutes (dist lat lng s.slat s.slng) ws)
            + (match es with
                | some e => dist s.slat s.slng e.1.slat e.1.slng
                | none => dist s.slat s.slng blat blng) / (6 * 60)
            + wfs ≤ mins - buf) ∧
        p = (walk_minutes (dist lat lng s.slat s.slng) ws
            + max 0 (((d.expected_mins.getD 0 : ℤ) : ℚ)
                - walk_minutes (dist lat lng s.slat s.slng) ws)
            + (match es with
                | some e => dist s.slat s.slng e.1.slat e.1.slng
                | none => dist s.slat s.slng blat blng) / (6 * 60)
            + wfs,
          mkBusOption dbid blat blng es s (py_strip (d.route.getD ""))
            (py_strip (d.headsign.getD ""))
            (walk_minutes (dist lat lng s.slat s.slng) ws)
            (max 0 (((d.expected_mins.getD 0 : ℤ) : ℚ)
                - walk_minutes (dist lat lng s.slat s.slng) ws))
            ((match es with
                | some e => dist s.slat s.slng e.1.slat e.1.slng
                | none => dist s.slat s.slng blat blng) / (6 * 60))
            wfs
            (walk_minutes (dist lat lng s.slat s.slng) ws
              + max 0 (((d.expected_mins.getD 0 : ℤ) : ℚ)
                  - walk_minutes (dist lat lng s.slat s.slng) ws)
              + (match es with
                  | some e => dist s.slat s.slng e.1.slat e.1.slng
                  | none => dist s.slat s.slng blat blng) / (6 * 60)
              + wfs)
            (max 0 (mins
              - (walk_minutes (dist lat lng s.slat s.slng) ws
                + max 0 (((d.expected_mins.getD 0 : ℤ) : ℚ)
                    - walk_minutes (dist lat lng s.slat s.slng) ws)
                + (match es with
                    | some e => dist s.slat s.slng e.1.slat e.1.slng
                    | none => dist s.slat s.slng blat blng) / (6 * 60)
                + wfs)
              - buf))) := by
  simp only [mem_bus_candidates_iff, bus_candidate_for_eq_some_iff,
    ride_minutes_heuristic_eq]

/-- C4: every BUS option in the result has exactly four steps, one of each
type in order WALK_TO_STOP, WAIT, RIDE, WALK_TO_DEST, the RIDE step carrying
a route, headsign and alighting-stop fields. -/
theorem C4_bus_option_steps (dist : ℚ → ℚ → ℚ → ℚ → ℚ)
    (fromisoformat : String → Option ℚ) (lat lng : ℚ) (dbid : String)
    (blat blng : ℚ) (bname iso : String) (ws buf : ℚ) (mo : ℤ) (now_ts : ℚ)
    (gb : String → Option (ℚ × ℚ × String)) (sns : ℚ → ℚ → ℚ → ℤ → List Stop)
    (gd : String → List Departure) (l : List RecOption)
    (hl : compute_recommendations dist fromisoformat lat lng dbid blat blng bname iso ws
      buf mo now_ts gb sns gd = .ok l) :
    ∀ o ∈ l, o.otype = "BUS" →
      o.steps.map Step.stype = ["WALK_TO_STOP", "WAIT", "RIDE", "WALK_TO_DEST"] ∧
      ∃ route headsign stop_id dur aid alat alng,
        o.steps[2]? = some (Step.ride route headsign stop_id dur aid alat alng) := by
  cases hp : parse_arrive_by fromisoformat iso with
  | none =>
    rw [compute_recommendations_error _ _ _ _ _ _ _ _ _ _ _ _ _ _ _ _ hp] at hl
    exact absurd hl (by simp)
  | some ats =>
    rw [compute_recommendations_ok _ _ _ _ _ _ _ _ _ _ _ _ _ _ _ _ ats hp] at hl
    injection hl with hl
    intro o ho hbus
    rw [← hl] at ho
    rcases mem_rank_options ho with ⟨p, hpc, hpo⟩ | hw
    · obtain ⟨s, r, hd2, wts, wt, rd, _, hpe⟩ := mem_bus_candidates_shape hpc
      rw [hpe] at hpo
      rw [← hpo]
      exact ⟨rfl, _, _, _, _, _, _, _, rfl⟩
    · rw [Option.ite_none_right_eq_some] at hw
      rw [← Option.some_inj.mp hw.2] at hbus
      exact absurd hbus (by simp [mk_walk_option])

/-- C4 witness: the BUS option of a concrete run has the four step types in
order and a RIDE step with its fields. -/
theorem C4_bus_option_steps_witness :
    (⟨"BUS", "Bus 5 to Lincoln (5 min)", 11/2, 99/2,
      [Step.walkToStop "s1" "Stop One" (1/5) 2 2, Step.wait "s1" 0,
        Step.ride "5" "Lincoln" "s1" (1/5) none none none,
        Step.walkToDest "b" 5 1 1]⟩ : RecOption).steps.map Step.stype
      = ["WALK_TO_STOP", "WAIT", "RIDE", "WALK_TO_DEST"] ∧
    ∃ route headsign stop_id dur aid alat alng,
      (⟨"BUS", "Bus 5 to Lincoln (5 min)", 11/2, 99/2,
        [Step.walkToStop "s1" "Stop One" (1/5) 2 2, Step.wait "s1" 0,
          Step.ride "5" "Lincoln" "s1" (1/5) none none none,
          Step.walkToDest "b" 5 1 1]⟩ : RecOption).steps[2]?
        = some (Step.ride route headsign stop_id dur aid alat alng) :=
  C4_bus_option_steps
    (fun a _ c _ => if a = 0 ∧ c = 1 then 84 else if a = 0 ∧ c = 2 then 72/5 else 432/5)
    (fun _ => some 3600) 0 0 "b" 1 1 "Dest" "t" 1 5 3 0 (fun _ => none)
    (fun _ _ r _ => if r = 800 then [⟨"s1", "Stop One", 2, 2⟩] else [])
    (fun _ => [⟨some "5", some "Lincoln", some 0⟩])
    [⟨"WALK", "Walk to Dest (1 min)", 7/5, 268/5, [Step.walkToDest "b" (7/5) 1 1]⟩,
      ⟨"BUS", "Bus 5 to Lincoln (5 min)", 11/2, 99/2,
        [Step.walkToStop "s1" "Stop One" (1/5) 2 2, Step.wait "s1" 0,
          Step.ride "5" "Lincoln" "s1" (1/5) none none none,
          Step.walkToDest "b" 5 1 1]⟩]
    (by set_option maxRecDepth 100000 in with_unfolding_all rfl)
    _ (by simp) rfl

/-- C6 counterexample: in a concrete run, the returned BUS option's rounded
step durations sum to 5.4 while its `eta_minutes` is 5.5 (the unrounded
total 5.48 rounds to 5.5, but the 0.24-minute walk and ride legs each round
down to 0.2): the step durations do not sum to the option's eta. -/
theorem C6_counterexample :
    compute_recommendations
        (fun a _ c _ => if a = 0 ∧ c = 1 then 84 else if a = 0 ∧ c = 2 then 72/5 else 432/5)
        (fun _ => some 3600) 0 0 "b" 1 1 "Dest" "t" 1 5 3 0 (fun _ => none)
        (fun _ _ r _ => if r = 800 then [⟨"s1", "Stop One", 2, 2⟩] else [])
        (fun _ => [⟨some "5", some "Lincoln", some 0⟩])
      = .ok [⟨"WALK", "Walk to Dest (1 min)", 7/5, 268/5, [Step.walkToDest "b" (7/5) 1 1]⟩,
        ⟨"BUS", "Bus 5 to Lincoln (5 min)", 11/2, 99/2,
          [Step.walkToStop "s1" "Stop One" (1/5) 2 2, Step.wait "s1" 0,
            Step.ride "5" "Lincoln" "s1" (1/5) none none none,
            Step.walkToDest "b" 5 1 1]⟩] ∧
    ((⟨"BUS", "Bus 5 to Lincoln (5 min)", 11/2, 99/2,
        [Step.walkToStop "s1" "Stop One" (1/5) 2 2, Step.wait "s1" 0,
          Step.ride "5" "Lincoln" "s1" (1/5) none none none,
          Step.walkToDest "b" 5 1 1]⟩ : RecOption).steps.map Step.duration_minutes).sum
      ≠ (⟨"BUS", "Bus 5 to Lincoln (5 min)", 11/2, 99/2,
        [Step.walkToStop "s1" "Stop One" (1/5) 2 2, Step.wait "s1" 0,
          Step.ride "5" "Lincoln" "s1" (1/5) none none none,
          Step.walkToDest "b" 5 1 1]⟩ : RecOption).eta_minutes := by
  constructor
  · set_option maxRecDepth 100000 in with_unfolding_all rfl
  · norm_num [Step.duration_minutes]

/-- C6 amended: steps are ordered start-to-finish (a single WALK_TO_DEST for
a WALK option, the four bus legs for a BUS option); each step duration and
the eta are rounded to one decimal, so the step durations sum to
`eta_minutes` only up to a rounding discrepancy of at most 0.25 minutes; for
a WALK option the single step's duration equals `eta_minutes` exactly. -/
theorem C6_steps_order_and_sum (dist : ℚ → ℚ → ℚ → ℚ → ℚ)
    (fromisoformat : String → Option ℚ) (lat lng : ℚ) (dbid : String)
    (blat blng : ℚ) (bname iso : String) (ws buf : ℚ) (mo : ℤ) (now_ts : ℚ)
    (gb : String → Option (ℚ × ℚ × String)) (sns : ℚ → ℚ → ℚ → ℤ → List Stop)
    (gd : String → List Departure) (l : List RecOption)
    (hl : compute_recommendations dist fromisoformat lat lng dbid blat blng bname iso ws
      buf mo now_ts gb sns gd = .ok l) :
    ∀ o ∈ l,
      (o.steps.map Step.stype = ["WALK_TO_DEST"] ∨
        o.steps.map Step.stype = ["WALK_TO_STOP", "WAIT", "RIDE", "WALK_TO_DEST"]) ∧
      |(o.steps.map Step.duration_minutes).sum - o.eta_minutes| ≤ 1/4 ∧
      (o.otype = "WALK" → o.steps.map Step.duration_minutes = [o.eta_minutes]) := by
  cases hp : parse_arrive_by fromisoformat iso with
  | none =>
    rw [compute_recommendations_error _ _ _ _ _ _ _ _ _ _ _ _ _ _ _ _ hp] at hl
    exact absurd hl (by simp)
  | some ats =>
    rw [compute_recommendations_ok _ _ _ _ _ _ _ _ _ _ _ _ _ _ _ _ ats hp] at hl
    injection hl with hl
    intro o ho
    rw [← hl] at ho
    rcases mem_rank_options ho with ⟨p, hpc, hpo⟩ | hw
    · obtain ⟨s, r, hd2, wts, wt, rd, _, hpe⟩ := mem_bus_candidates_shape hpc
      rw [hpe] at hpo
      rw [← hpo]
      refine ⟨Or.inr rfl, ?_, ?_⟩
      · have h1 := round1_sub_abs_le wts
        have h2 := round1_sub_abs_le wt
        have h3 := round1_sub_abs_le rd
        have h4 := round1_sub_abs_le
          (match find_exit_stop dist blat blng (sns blat blng DEST_STOP_RADIUS_M 5) with
            | some es => walk_minutes es.2 (max (1/10) ws)
            | none => 5)
        have h5 := round1_sub_abs_le (wts + wt + rd +
          (match find_exit_stop dist blat blng (sns blat blng DEST_STOP_RADIUS_M 5) with
            | some es => walk_minutes es.2 (max (1/10) ws)
            | none => 5))
        rw [abs_le] at h1 h2 h3 h4 h5
        simp only [mkBusOption, Step.duration_minutes, List.map_cons, List.map_nil,
          List.sum_cons, List.sum_nil]
        rw [abs_le]
        constructor <;> linarith
      · intro habs
        simp [mkBusOption] at habs
    · rw [Option.ite_none_right_eq_some] at hw
      rw [← Option.some_inj.mp hw.2]
      refine ⟨Or.inl rfl, ?_, fun _ => rfl⟩
      simp [mk_walk_option, Step.duration_minutes]

/-- C6 witness: the bound applies to the options of a concrete run; the WALK
option's single step equals its eta exactly. -/
theorem C6_steps_order_and_sum_witness :
    ((((⟨"WALK", "Walk to Dest (1 min)", 7/5, 268/5,
        [Step.walkToDest "b" (7/5) 1 1]⟩ : RecOption).steps.map Step.stype
        = ["WALK_TO_DEST"]) ∨
      ((⟨"WALK", "Walk to Dest (1 min)", 7/5, 268/5,
        [Step.walkToDest "b" (7/5) 1 1]⟩ : RecOption).steps.map Step.stype
        = ["WALK_TO_STOP", "WAIT", "RIDE", "WALK_TO_DEST"])) ∧
    |(((⟨"WALK", "Walk to Dest (1 min)", 7/5, 268/5,
        [Step.walkToDest "b" (7/5) 1 1]⟩ : RecOption).steps.map
          Step.duration_minutes).sum
        - (⟨"WALK", "Walk to Dest (1 min)", 7/5, 268/5,
          [Step.walkToDest "b" (7/5) 1 1]⟩ : RecOption).eta_minutes)| ≤ 1/4 ∧
    ((⟨"WALK", "Walk to Dest (1 min)", 7/5, 268/5,
        [Step.walkToDest "b" (7/5) 1 1]⟩ : RecOption).otype = "WALK" →
      (⟨"WALK", "Walk to Dest (1 min)", 7/5, 268/5,
        [Step.walkToDest "b" (7/5) 1 1]⟩ : RecOption).steps.map Step.duration_minutes
        = [(⟨"WALK", "Walk to Dest (1 min)", 7/5, 268/5,
          [Step.walkToDest "b" (7/5) 1 1]⟩ : RecOption).eta_minutes])) :=
  C6_steps_order_and_sum
    (fun a _ c _ => if a = 0 ∧ c = 1 then 84 else if a = 0 ∧ c = 2 then 72/5 else 432/5)
    (fun _ => some 3600) 0 0 "b" 1 1 "Dest" "t" 1 5 3 0 (fun _ => none)
    (fun _ _ r _ => if r = 800 then [⟨"s1", "Stop One", 2, 2⟩] else [])
    (fun _ => [⟨some "5", some "Lincoln", some 0⟩])
    [⟨"WALK", "Walk to Dest (1 min)", 7/5, 268/5, [Step.walkToDest "b" (7/5) 1 1]⟩,
      ⟨"BUS", "Bus 5 to Lincoln (5 min)", 11/2, 99/2,
        [Step.walkToStop "s1" "Stop One" (1/5) 2 2, Step.wait "s1" 0,
          Step.ride "5" "Lincoln" "s1" (1/5) none none none,
          Step.walkToDest "b" 5 1 1]⟩]
    (by set_option maxRecDepth 100000 in with_unfolding_all rfl)
    _ (by simp)

theorem radians_sub_symm_sin_sq (x y : ℝ) :
    Real.sin (radians (x - y) / 2) ^ 2 = Real.sin (radians (y - x) / 2) ^ 2 := by
  have hxy : radians (x - y) / 2 = -(radians (y - x) / 2) := by
    unfold radians
    ring
  rw [hxy, Real.sin_neg, neg_sq]

/-- C8: the great-circle distance helpers are symmetric in their two
coordinate arguments and vanish on identical coordinates. -/
theorem C8_haversine_symm_and_zero :
    (∀ lat1 lng1 lat2 lng2 : ℝ,
      haversine_distance_km lat1 lng1 lat2 lng2 = haversine_distance_km lat2 lng2 lat1 lng1 ∧
      haversine_distance_m lat1 lng1 lat2 lng2 = haversine_distance_m lat2 lng2 lat1 lng1) ∧
    (∀ lat lng : ℝ,
      haversine_distance_km lat lng lat lng = 0 ∧ haversine_distance_m lat lng lat lng = 0) := by
  have hsymm : ∀ lat1 lng1 lat2 lng2 : ℝ,
      haversine_distance_km lat1 lng1 lat2 lng2 = haversine_distance_km lat2 lng2 lat1 lng1 := by
    intro lat1 lng1 lat2 lng2
    unfold haversine_distance_km
    dsimp only
    rw [radians_sub_symm_sin_sq lat2 lat1, radians_sub_symm_sin_sq lng2 lng1,
      mul_comm (Real.cos (radians lat1)) (Real.cos (radians lat2))]
  have hzero : ∀ lat lng : ℝ, haversine_distance_km lat lng lat lng = 0 := by
    intro lat lng
    unfold haversine_distance_km
    dsimp only
    have h1 : radians (lat - lat) = 0 := by unfold radians; ring
    have h2 : radians (lng - lng) = 0 := by unfold radians; ring
    rw [h1, h2]
    norm_num [Real.sin_zero]
    right
    unfold atan2
    norm_num [Real.arctan_zero]
  refine ⟨fun lat1 lng1 lat2 lng2 => ⟨hsymm lat1 lng1 lat2 lng2, ?_⟩,
    fun lat lng => ⟨hzero lat lng, ?_⟩⟩
  · unfold haversine_distance_m
    rw [hsymm]
  · unfold haversine_distance_m
    rw [hzero]
    ring
